import Mathlib

/-!
Verification of the profile-resolution and role/status reconciliation core
of the alumni-networking web application.

The embedding below translates, function by function, the JavaScript of

  * `src/app/api/profile/route.js`        (the POST /api/profile handler),
  * `src/lib/profile-service.js`          (fallback profile helpers),
  * the second profile-service variant    (fallback + client auto-create),
  * `src/app/(auth)/signin/page.js`       (role redirect and pending gate),
  * `src/app/auth/callback/page.js`       (OAuth first-login profile insert),
  * `src/app/(admin)/verify-users/page.js` (admin approval action)

into pure Lean functions.  Roles and statuses are the raw strings the code
compares (`"STUDENT"`, `"ALUMNI"`, ...).  Each asynchronous database call of
the source returns a `{ data, error }` pair; the embedding models the
database as a list of rows plus explicit error parameters standing for the
`error` component each call may produce, so a handler is a pure function of
the request, the observed table and the per-call error outcomes.
-/

namespace Sih1

/-- A supabase error object: the code reads its `.code` and `.message`. -/
structure SupaErr where
  code : String
  message : String
deriving Repr, DecidableEq

/-- A row of the `profiles` table as the `/api/profile` route selects it:
`select('id, name, role, status, email')`. -/
structure ProfileRow where
  id : String
  name : String
  role : String
  status : String
  email : String
deriving Repr, DecidableEq

/-- Parsed JSON body of a POST /api/profile request:
`const { userId, email, role: requestedRole, status: requestedStatus } = body`.
Absent fields are `none` (JS `undefined`). -/
structure Body where
  userId : Option String
  email : Option String
  role : Option String
  status : Option String
deriving Repr, DecidableEq

/-- JS truthiness of an optional string field: `undefined` and `""` are falsy. -/
def truthy : Option String → Bool
  | none => false
  | some s => !(s == "")

/-- JS `a || b` for an optional string `a` with string default `b`. -/
def jsOr (a : Option String) (b : String) : String :=
  match a with
  | some s => if s == "" then b else s
  | none => b

/-- JS `email.split('@')[0]`: the characters before the first `'@'`
(the whole string when it contains no `'@'`). -/
def emailLocalPart (email : String) : String :=
  ⟨email.toList.takeWhile (fun c => c != '@')⟩

/-- route.js line 32 and 54: `const allowedRoles = ['STUDENT','ALUMNI','RECRUITER','ADMIN']`. -/
def allowedRoles : List String := ["STUDENT", "ALUMNI", "RECRUITER", "ADMIN"]

/-- The `maybeSingle()` lookup `.eq('id', userId)` over the observed table. -/
def findProfile (db : List ProfileRow) (userId : String) : Option ProfileRow :=
  db.find? (fun p => p.id == userId)

/-- The write issued by route.js lines 34-39:
`update({ role: requestedRole }).eq('id', userId)`. -/
def updateRoleInDb (db : List ProfileRow) (userId newRole : String) : List ProfileRow :=
  db.map (fun p => if p.id == userId then { p with role := newRole } else p)

/-- Row shape returned by the insert branch, route.js line 66:
`select('id, name, role, status')` (no email column). -/
structure CreatedRow where
  id : String
  name : String
  role : String
  status : String
deriving Repr, DecidableEq

/-- JSON body of a response of the POST /api/profile route: a full profile
row (existing or updated), a created row, or an `{ error }` object. -/
inductive RespBody where
  | profile (p : ProfileRow)
  | created (c : CreatedRow)
  | err (msg : String)
deriving Repr, DecidableEq

/-- An HTTP response of the route: status code plus JSON body. -/
structure RouteResponse where
  status : Nat
  body : RespBody
deriving Repr, DecidableEq

/-- route.js line 55: `const role = allowedRoles.includes(requestedRole) ?
requestedRole : 'ALUMNI'` (the `includes` of an absent field is false). -/
def createRole (body : Body) : String :=
  if allowedRoles.contains (body.role.getD "") then body.role.getD "" else "ALUMNI"

/-- route.js lines 57-59: `const status = (role === 'STUDENT' || role ===
'ADMIN' || role === 'ALUMNI') ? 'APPROVED' : (requestedStatus || 'PENDING')`. -/
def createStatus (body : Body) : String :=
  if createRole body == "STUDENT" || createRole body == "ADMIN" || createRole body == "ALUMNI"
  then "APPROVED"
  else jsOr body.status "PENDING"

/-- route.js lines 52-73: the create branch of the POST handler, entered when
no existing row was observed.  Derives `name` from the email local part and
the role and status via `createRole`/`createStatus`, and inserts the payload
unless the insert errors. -/
def postProfileCreate (userId email : String) (body : Body) (db : List ProfileRow)
    (insertErr : Option SupaErr) : RouteResponse × List ProfileRow :=
  let name := emailLocalPart email
  let payload : ProfileRow := ⟨userId, name, createRole body, createStatus body, email⟩
  match insertErr with
  | some e => (⟨500, .err e.message⟩, db)
  | none => (⟨201, .created ⟨userId, name, createRole body, createStatus body⟩⟩, db ++ [payload])

/-- The POST /api/profile handler of `src/app/api/profile/route.js`
(after the env-var check and `req.json()` parse, which only produce the
500/`{}` defaults the `Body` options already cover).

`db` is the table as the fetch observes it; `fetchErr`, `updateErr` and
`insertErr` are the `error` components the three supabase calls may
return (`none` = the call succeeds; a successful fetch answers from `db`).
Returns the HTTP response and the table after any write the handler issued. -/
def postProfile (body : Body) (db : List ProfileRow)
    (fetchErr updateErr insertErr : Option SupaErr) :
    RouteResponse × List ProfileRow :=
  if !(truthy body.userId && truthy body.email) then
    (⟨400, .err "userId and email required"⟩, db)
  else
    let userId := body.userId.getD ""
    let email := body.email.getD ""
    let existing := if fetchErr.isSome then none else findProfile db userId
    match existing with
    | some ex =>
      if truthy body.role && allowedRoles.contains (body.role.getD "")
          && !(body.role.getD "" == ex.role) then
        match updateErr with
        | some e => (⟨500, .err e.message⟩, db)
        | none =>
          (⟨200, .profile { ex with role := body.role.getD "" }⟩,
            updateRoleInDb db userId (body.role.getD ""))
      else
        (⟨200, .profile ex⟩, db)
    | none =>
      match fetchErr with
      | some e =>
        if !(e.code == "PGRST116") then (⟨500, .err e.message⟩, db)
        else postProfileCreate userId email body db insertErr
      | none => postProfileCreate userId email body db insertErr

/-- The destination switch of `handleEmailSignIn`, signin/page.js lines
203-210: `ADMIN → '/admin'`, `RECRUITER → '/recruiter'`,
`STUDENT → '/student/dashboard'`, `default → '/dashboard'`. -/
def signinDest (derivedRole : String) : String :=
  if derivedRole == "ADMIN" then "/admin"
  else if derivedRole == "RECRUITER" then "/recruiter"
  else if derivedRole == "STUDENT" then "/student/dashboard"
  else "/dashboard"

/-- The session precheck of `checkAuth`, signin/page.js lines 69-77: the
resolved `roleCandidate` (possibly `undefined`, modelled `none`) is
normalized `'ALUMNUS' → 'ALUMNI'`; when it is not in the allow list the
function returns without redirecting (result `none`, the user stays on the
sign-in page); otherwise the destination starts as `'/dashboard'` and is
overridden for ADMIN, STUDENT and RECRUITER. -/
def precheckDest (roleCandidate : Option String) : Option String :=
  let rc := if roleCandidate == some "ALUMNUS" then some "ALUMNI" else roleCandidate
  match rc with
  | none => none
  | some r =>
    if ["ADMIN", "STUDENT", "RECRUITER", "ALUMNI"].contains r then
      some (if r == "ADMIN" then "/admin"
            else if r == "STUDENT" then "/student/dashboard"
            else if r == "RECRUITER" then "/recruiter"
            else "/dashboard")
    else none

/-- A JSON value, as far as the sign-in page inspects the /api/profile
response: `null`/`undefined` (collapsed, since the page only compares the
result with a string), strings, and objects. -/
inductive Json where
  | null
  | str (s : String)
  | obj (fields : List (String × Json))

/-- JS member access `j.k` with optional chaining: an absent key, or access
on a non-object, yields `null` (standing for `undefined`). -/
def Json.getField : Json → String → Json
  | .obj fields, key =>
    match fields.find? (fun kv => kv.fst == key) with
    | some kv => kv.snd
    | none => .null
  | _, _ => .null

/-- JS strict equality of a field value with a string literal. -/
def Json.isStr : Json → String → Bool
  | .str t, s => t == s
  | _, _ => false

/-- The JSON object a successful POST /api/profile response carries for an
existing or updated row: the flat profile fields, route.js lines 26 and 38
(`select('id, name, role, status, email')`). -/
def profileJson (p : ProfileRow) : Json :=
  .obj [("id", .str p.id), ("name", .str p.name), ("role", .str p.role),
        ("status", .str p.status), ("email", .str p.email)]

/-- The JSON object a 201 response carries for a created row, route.js
line 66 (`select('id, name, role, status')`). -/
def createdJson (c : CreatedRow) : Json :=
  .obj [("id", .str c.id), ("name", .str c.name), ("role", .str c.role),
        ("status", .str c.status)]

/-- The pending-approval gate of `handleEmailSignIn`, signin/page.js line
195: `derivedRole !== 'STUDENT' && (profileResponse?.profile?.status ===
'PENDING')`.  `profileResponse` is the parsed JSON of the /api/profile
response, or `none` when `ensureProfile` returned `null`. -/
def pendingBlocked (derivedRole : String) (profileResponse : Option Json) : Bool :=
  !(derivedRole == "STUDENT")
    && ((((profileResponse.getD .null).getField "profile").getField "status").isStr "PENDING")

namespace LibProfileService

/-- Row shape of `src/lib/profile-service.js` lookups:
`select('full_name, role, status')`. -/
structure LibRow where
  full_name : String
  role : String
  status : String
deriving Repr, DecidableEq

/-- profile-service.js lines 4-8: `FALLBACK_PROFILE`. -/
def FALLBACK_PROFILE : LibRow :=
  { full_name := "User", role := "STUDENT", status := "APPROVED" }

/-- Return value of the helpers: the row as fetched (which carries no `id`
column), or the spread `{ ...FALLBACK_PROFILE, id: userId }` (the only path
that sets `id`). -/
structure LibProfile where
  id : Option String
  full_name : String
  role : String
  status : String
deriving Repr, DecidableEq

/-- `getUserProfileSafe` of src/lib/profile-service.js: a `.single()` fetch
by id; on any error (including "no rows") it logs and returns
`{ ...FALLBACK_PROFILE, id: userId }`, as does the surrounding catch. -/
def getUserProfileSafe (userId : String) (res : Except SupaErr LibRow) : LibProfile :=
  match res with
  | .ok d => ⟨none, d.full_name, d.role, d.status⟩
  | .error _ =>
    ⟨some userId, FALLBACK_PROFILE.full_name, FALLBACK_PROFILE.role, FALLBACK_PROFILE.status⟩

/-- `getUserProfileClient` of src/lib/profile-service.js: identical logic to
`getUserProfileSafe` over the caller-supplied client. -/
def getUserProfileClient (userId : String) (res : Except SupaErr LibRow) : LibProfile :=
  getUserProfileSafe userId res

end LibProfileService

namespace ClientProfileService

/-- Row shape the second profile-service variant reads and writes:
`select('id, name, role, status')`. -/
structure ClientRow where
  id : String
  name : String
  role : String
  status : String
deriving Repr, DecidableEq

/-- Shape of the fallback constant (it carries no id of its own). -/
structure FallbackShape where
  name : String
  role : String
  status : String
deriving Repr, DecidableEq

/-- Fallback constant of the second profile-service variant, lines 4-8:
`{ name: 'User', role: 'ALUMNI', status: 'APPROVED' }`. -/
def FALLBACK_PROFILE : FallbackShape :=
  { name := "User", role := "ALUMNI", status := "APPROVED" }

/-- Result object of `getUserProfileClient`: a profile row plus the
`autoFallback: true` marker the step-3 fallback object carries. -/
structure ClientProfile where
  id : String
  name : String
  role : String
  status : String
  autoFallback : Bool
deriving Repr, DecidableEq

/-- Lines 56-92 of the variant: the auto-create attempt and the final
`{ ...FALLBACK_PROFILE, id: userId, autoFallback: true }` fallback.
The name is the auth user's email local part
(`user?.email ? user.email.split('@')[0] : 'User'`). -/
def clientAutoCreate (db : List ClientRow) (userId : String)
    (authEmail : Option String) (insertErr : Option SupaErr) :
    ClientProfile × List ClientRow :=
  let emailName :=
    match authEmail with
    | some e => if e == "" then "User" else emailLocalPart e
    | none => "User"
  let payload : ClientRow := ⟨userId, emailName, "ALUMNI", "APPROVED"⟩
  match insertErr with
  | none => (⟨userId, emailName, "ALUMNI", "APPROVED", false⟩, db ++ [payload])
  | some _ =>
    (⟨userId, FALLBACK_PROFILE.name, FALLBACK_PROFILE.role, FALLBACK_PROFILE.status, true⟩, db)

/-- `getUserProfileClient` of the second profile-service variant, lines
38-94.  Steps: (1) `maybeSingle()` fetch by id — return the row when found;
on a non-`PGRST116` error return `{ ...FALLBACK_PROFILE, id: userId }`;
(2) otherwise auto-create via `clientAutoCreate`.  `authEmail` is
`user?.email`; `fetchErr`/`insertErr` are the error components of the two
table calls. -/
def getUserProfileClient (db : List ClientRow) (userId : String)
    (fetchErr : Option SupaErr) (authEmail : Option String) (insertErr : Option SupaErr) :
    ClientProfile × List ClientRow :=
  let data := if fetchErr.isSome then none else db.find? (fun p => p.id == userId)
  match data with
  | some d => (⟨d.id, d.name, d.role, d.status, false⟩, db)
  | none =>
    match fetchErr with
    | some e =>
      if !(e.code == "PGRST116") then
        (⟨userId, FALLBACK_PROFILE.name, FALLBACK_PROFILE.role, FALLBACK_PROFILE.status, false⟩,
          db)
      else clientAutoCreate db userId authEmail insertErr
    | none => clientAutoCreate db userId authEmail insertErr

end ClientProfileService

namespace AuthCallback

/-- The metadata fields the OAuth callback reads from the session user. -/
structure UserMeta where
  full_name : Option String
  name : Option String
deriving Repr, DecidableEq

/-- Insert payload shape of callback/page.js lines 47-55
(`id`, `full_name`, `role`; no status column is written). -/
structure CallbackPayload where
  id : String
  full_name : String
  role : String
deriving Repr, DecidableEq

/-- The profile the OAuth callback inserts when the session user has no
profile row, callback/page.js lines 47-55: `full_name` is
`user_metadata?.full_name || user_metadata?.name || email`, and the role is
the hardcoded `'STUDENT'` default for OAuth users. -/
def callbackInsertPayload (userId email : String) (meta : UserMeta) : CallbackPayload :=
  ⟨userId, jsOr meta.full_name (jsOr meta.name email), "STUDENT"⟩

end AuthCallback

/-- The `approveUser` server action of verify-users/page.js lines 28-31:
`update({ status: 'APPROVED' }).eq('id', userId)`. -/
def approveUser (db : List ProfileRow) (userId : String) : List ProfileRow :=
  db.map (fun p => if p.id == userId then { p with status := "APPROVED" } else p)

/-- When no row is observed and the fetch succeeds, the handler runs the
create branch. -/
theorem postProfile_not_found (body : Body) (db : List ProfileRow) (ie : Option SupaErr)
    (hu : truthy body.userId = true) (he : truthy body.email = true)
    (hfind : findProfile db (body.userId.getD "") = none) :
    postProfile body db none none ie =
      postProfileCreate (body.userId.getD "") (body.email.getD "") body db ie := by
  simp [postProfile, hu, he, hfind]

/-- When a row is observed, the handler runs the existing-row branch. -/
theorem postProfile_found (body : Body) (db : List ProfileRow) (p : ProfileRow)
    (ue ie : Option SupaErr)
    (hu : truthy body.userId = true) (he : truthy body.email = true)
    (hfind : findProfile db (body.userId.getD "") = some p) :
    postProfile body db none ue ie =
      (if truthy body.role && allowedRoles.contains (body.role.getD "")
          && !(body.role.getD "" == p.role) then
        match ue with
        | some e => (⟨500, .err e.message⟩, db)
        | none =>
          (⟨200, .profile { p with role := body.role.getD "" }⟩,
            updateRoleInDb db (body.userId.getD "") (body.role.getD ""))
      else (⟨200, .profile p⟩, db)) := by
  simp only [postProfile, hu, he, Bool.and_self, Bool.not_true, Bool.false_eq_true, if_false,
    Option.isSome_none, Bool.false_eq_true, if_neg, hfind]

/-- The claimed role is kept when it is canonical. -/
theorem createRole_of_canonical (body : Body) (r : String)
    (hr : body.role = some r) (hmem : r ∈ allowedRoles) : createRole body = r := by
  simp [createRole, hr, hmem]

/-- An absent or non-canonical claimed role defaults to ALUMNI. -/
theorem createRole_of_not_canonical (body : Body)
    (h : ∀ r, body.role = some r → r ∉ allowedRoles) : createRole body = "ALUMNI" := by
  match hb : body.role with
  | none => simp [createRole, hb, allowedRoles]
  | some r =>
    have hm : r ∉ allowedRoles := h r hb
    simp [createRole, hb, hm]

/-- The creation status in one equation: the client-supplied status is live
exactly when the claimed role is RECRUITER; every other derived role is
stored APPROVED. -/
theorem createStatus_eq (body : Body) :
    createStatus body =
      if body.role == some "RECRUITER" then jsOr body.status "PENDING" else "APPROVED" := by
  match hb : body.role with
  | none => simp [createStatus, createRole, hb, allowedRoles]
  | some r =>
    by_cases h1 : r = "STUDENT"
    · subst h1; simp [createStatus, createRole, hb, allowedRoles]
    · by_cases h2 : r = "ALUMNI"
      · subst h2; simp [createStatus, createRole, hb, allowedRoles]
      · by_cases h3 : r = "RECRUITER"
        · subst h3; simp [createStatus, createRole, hb, allowedRoles]
        · by_cases h4 : r = "ADMIN"
          · subst h4; simp [createStatus, createRole, hb, allowedRoles]
          · simp [createStatus, createRole, hb, allowedRoles, h1, h2, h3, h4]

/-- C1 counterexample: a first-time POST /api/profile resolution claiming the
canonical alumnus role `ALUMNI` (with no status override in the body) stores
status `APPROVED`, not the `PENDING` the claim requires. -/
theorem C1_alumni_created_approved :
    (postProfile ⟨some "u1", some "al@x.com", some "ALUMNI", none⟩ [] none none none).2.map
        (fun p => (p.role, p.status)) = [("ALUMNI", "APPROVED")] ∧
    ("APPROVED" : String) ≠ "PENDING" := by decide

/-- C1 amended: first-time creations store status APPROVED for claimed roles
STUDENT, ADMIN and ALUMNI; a claimed RECRUITER role is stored with the
body's status when one is supplied and PENDING otherwise; and the
client-side auto-create always inserts role ALUMNI with status APPROVED. -/
theorem C1_creation_status_amended :
    (∀ (uid email : String) (body : Body) (db : List ProfileRow),
      body.role = some "STUDENT" ∨ body.role = some "ADMIN" ∨ body.role = some "ALUMNI" →
      (postProfileCreate uid email body db none).2.map (fun p => p.status) =
        db.map (fun p => p.status) ++ ["APPROVED"]) ∧
    (∀ (uid email : String) (body : Body) (db : List ProfileRow),
      body.role = some "RECRUITER" →
      (postProfileCreate uid email body db none).2.map (fun p => p.status) =
        db.map (fun p => p.status) ++ [jsOr body.status "PENDING"]) ∧
    (∀ (db : List ClientProfileService.ClientRow) (uid : String) (ae : Option String),
      (ClientProfileService.clientAutoCreate db uid ae none).2.map
          (fun p => (p.role, p.status)) =
        db.map (fun p => (p.role, p.status)) ++ [("ALUMNI", "APPROVED")]) := by
  refine ⟨?_, ?_, ?_⟩
  · intro uid email body db hrole
    have hs : createStatus body = "APPROVED" := by
      rcases hrole with hb | hb | hb <;> simp [createStatus_eq, hb]
    simp [postProfileCreate, hs]
  · intro uid email body db hb
    have hs : createStatus body = jsOr body.status "PENDING" := by
      simp [createStatus_eq, hb]
    simp [postProfileCreate, hs]
  · intro db uid ae
    simp [ClientProfileService.clientAutoCreate]

/-- C1 witness: a RECRUITER creation with no body status stores PENDING, and
an ADMIN creation stores APPROVED. -/
theorem C1_creation_status_amended_witness :
    (postProfileCreate "u2" "bob@x.com" ⟨some "u2", some "bob@x.com", some "RECRUITER", none⟩
        [] none).2.map (fun p => p.status) = ["PENDING"] ∧
    (postProfileCreate "u3" "ad@x.com" ⟨some "u3", some "ad@x.com", some "ADMIN", none⟩
        [] none).2.map (fun p => p.status) = ["APPROVED"] := by
  constructor
  · exact (C1_creation_status_amended.2.1 "u2" "bob@x.com"
      ⟨some "u2", some "bob@x.com", some "RECRUITER", none⟩ [] rfl).trans (by decide)
  · exact (C1_creation_status_amended.1 "u3" "ad@x.com"
      ⟨some "u3", some "ad@x.com", some "ADMIN", none⟩ [] (Or.inr (Or.inl rfl))).trans
      (by decide)

/-- C2: the sign-in pending gate `derivedRole !== 'STUDENT' &&
profileResponse?.profile?.status === 'PENDING'` can never evaluate to true
against a real /api/profile response, because the route returns the profile
fields at the top level of the JSON while the gate reads them under a
`profile` key that is never present: the gate is false for every profile
row (even status PENDING with a non-student role), for every created row,
and for a failed ensure (`null`).  The sign-in flow therefore never blocks a
pending non-student account. -/
theorem C2_pending_gate_never_fires :
    ∀ (derivedRole : String) (p : ProfileRow) (c : CreatedRow),
      pendingBlocked derivedRole (some (profileJson p)) = false ∧
      pendingBlocked derivedRole (some (createdJson c)) = false ∧
      pendingBlocked derivedRole none = false := by
  intro derivedRole p c
  refine ⟨?_, ?_, ?_⟩ <;>
    simp [pendingBlocked, profileJson, createdJson, Json.getField, Json.isStr, List.find?]

/-- C3: when a row exists and the body carries a canonical role different
from the stored one, the stored role is overwritten with the requested role
unconditionally (the ADMIN-to-STUDENT downgrade included) and the updated
profile is returned with 200; with no such differing canonical role the
existing profile is returned unchanged and no write happens. -/
theorem C3_existing_row_role_update :
    (∀ (body : Body) (db : List ProfileRow) (p : ProfileRow) (r : String),
      truthy body.userId = true → truthy body.email = true →
      findProfile db (body.userId.getD "") = some p →
      body.role = some r → r ∈ allowedRoles → r ≠ p.role →
      postProfile body db none none none =
        (⟨200, .profile { p with role := r }⟩,
          updateRoleInDb db (body.userId.getD "") r)) ∧
    (∀ (body : Body) (db : List ProfileRow) (p : ProfileRow),
      truthy body.userId = true → truthy body.email = true →
      findProfile db (body.userId.getD "") = some p →
      (body.role = none ∨ body.role = some p.role ∨
        (∀ r, body.role = some r → r ∉ allowedRoles)) →
      postProfile body db none none none = (⟨200, .profile p⟩, db)) := by
  constructor
  · intro body db p r hu he hfind hr hmem hne
    rw [postProfile_found body db p none none hu he hfind]
    have hc : allowedRoles.contains r = true := by simpa using hmem
    have hrt : truthy body.role = true := by
      have : r ≠ "" := by
        intro h; subst h; simp [allowedRoles] at hmem
      simp [truthy, hr, this]
    simp [hr, hrt, hc, hne]
    intro hcontra
    exact absurd hmem (hcontra (hr ▸ hrt))
  · intro body db p hu he hfind hcase
    rw [postProfile_found body db p none none hu he hfind]
    rcases hcase with hb | hb | hb
    · simp [hb, truthy]
    · simp [hb]
    · match hbr : body.role with
      | none => simp [truthy]
      | some r =>
        have hm : r ∉ allowedRoles := hb r hbr
        simp [hbr, hm]

/-- C3 witness: a stored ADMIN profile is downgraded to STUDENT by a request
claiming STUDENT, and a request with no role leaves a row unchanged. -/
theorem C3_existing_row_role_update_witness :
    postProfile ⟨some "u4", some "ad@x.com", some "STUDENT", none⟩
        [⟨"u4", "ad", "ADMIN", "APPROVED", "ad@x.com"⟩] none none none =
      (⟨200, .profile ⟨"u4", "ad", "STUDENT", "APPROVED", "ad@x.com"⟩⟩,
        [⟨"u4", "ad", "STUDENT", "APPROVED", "ad@x.com"⟩]) ∧
    postProfile ⟨some "u4", some "ad@x.com", none, none⟩
        [⟨"u4", "ad", "ADMIN", "APPROVED", "ad@x.com"⟩] none none none =
      (⟨200, .profile ⟨"u4", "ad", "ADMIN", "APPROVED", "ad@x.com"⟩⟩,
        [⟨"u4", "ad", "ADMIN", "APPROVED", "ad@x.com"⟩]) := by
  constructor
  · exact (C3_existing_row_role_update.1 ⟨some "u4", some "ad@x.com", some "STUDENT", none⟩
      [⟨"u4", "ad", "ADMIN", "APPROVED", "ad@x.com"⟩]
      ⟨"u4", "ad", "ADMIN", "APPROVED", "ad@x.com"⟩ "STUDENT"
      rfl rfl (by decide) rfl (by decide) (by decide)).trans (by decide)
  · exact (C3_existing_row_role_update.2 ⟨some "u4", some "ad@x.com", none, none⟩
      [⟨"u4", "ad", "ADMIN", "APPROVED", "ad@x.com"⟩]
      ⟨"u4", "ad", "ADMIN", "APPROVED", "ad@x.com"⟩
      rfl rfl (by decide) (Or.inl rfl)).trans (by decide)

/-- C4 counterexample: two unauthenticated creation requests that differ only
in the body's `status` field store different statuses — the route has no
caller trust check, and for a RECRUITER creation `requestedStatus` flows
straight into the stored row (`requestedStatus || 'PENDING'`). -/
theorem C4_status_field_influences_creation :
    (postProfile ⟨some "u5", some "r@x.com", some "RECRUITER", none⟩ [] none none none).2.map
        (fun p => p.status) = ["PENDING"] ∧
    (postProfile ⟨some "u5", some "r@x.com", some "RECRUITER", some "APPROVED"⟩
        [] none none none).2.map (fun p => p.status) = ["APPROVED"] := by decide

/-- C4 amended: the client-supplied status cannot influence a creation whose
claimed role is not RECRUITER (those all store APPROVED), but a RECRUITER
creation stores the body's status verbatim when one is supplied — with no
trust check distinguishing administrative callers. -/
theorem C4_status_noninterference_amended :
    (∀ (body : Body) (db : List ProfileRow) (s1 s2 : Option String),
      truthy body.userId = true → truthy body.email = true →
      findProfile db (body.userId.getD "") = none →
      body.role ≠ some "RECRUITER" →
      postProfile { body with status := s1 } db none none none =
        postProfile { body with status := s2 } db none none none) ∧
    (∀ body : Body, body.role = some "RECRUITER" →
      createStatus body = jsOr body.status "PENDING") := by
  constructor
  · intro body db s1 s2 hu he hfind hne
    rw [postProfile_not_found { body with status := s1 } db none hu he hfind,
      postProfile_not_found { body with status := s2 } db none hu he hfind]
    have h1 : createStatus { body with status := s1 } = "APPROVED" := by
      rw [createStatus_eq]; simp [hne]
    have h2 : createStatus { body with status := s2 } = "APPROVED" := by
      rw [createStatus_eq]; simp [hne]
    simp [postProfileCreate, h1, h2, createRole]
  · intro body hb
    simp [createStatus_eq, hb]

/-- C4 witness: for a STUDENT creation the status field is inert, and for a
RECRUITER body the creation status is exactly the supplied one. -/
theorem C4_status_noninterference_witness :
    postProfile ⟨some "u6", some "s@x.com", some "STUDENT", none⟩ [] none none none =
      postProfile ⟨some "u6", some "s@x.com", some "STUDENT", some "PENDING"⟩ [] none none none ∧
    createStatus ⟨some "u5", some "r@x.com", some "RECRUITER", some "APPROVED"⟩ =
      jsOr (some "APPROVED") "PENDING" := by
  constructor
  · exact C4_status_noninterference_amended.1
      ⟨some "u6", some "s@x.com", some "STUDENT", none⟩ [] none (some "PENDING")
      rfl rfl rfl (by decide)
  · exact C4_status_noninterference_amended.2
      ⟨some "u5", some "r@x.com", some "RECRUITER", some "APPROVED"⟩ rfl

/-- C5 counterexample: the fallback profile of src/lib/profile-service.js has
role STUDENT, not the canonical alumnus role. -/
theorem C5_lib_fallback_role :
    LibProfileService.FALLBACK_PROFILE.role = "STUDENT" ∧
    LibProfileService.FALLBACK_PROFILE.role ≠ "ALUMNI" ∧
    LibProfileService.FALLBACK_PROFILE.role ≠ "ALUMNUS" := by decide

/-- C5 amended: both fallback constants have name "User" and status APPROVED,
but the src/lib/profile-service.js one has role STUDENT (and its helpers
return it on every lookup error, row-not-found included, since they use
single()), while the other profile-service variant's fallback has role
ALUMNI (returned on non-row-not-found fetch errors). -/
theorem C5_fallback_profiles_amended :
    LibProfileService.FALLBACK_PROFILE =
      { full_name := "User", role := "STUDENT", status := "APPROVED" } ∧
    ClientProfileService.FALLBACK_PROFILE =
      { name := "User", role := "ALUMNI", status := "APPROVED" } ∧
    (∀ (uid : String) (e : SupaErr),
      LibProfileService.getUserProfileSafe uid (.error e) =
        ⟨some uid, "User", "STUDENT", "APPROVED"⟩ ∧
      LibProfileService.getUserProfileClient uid (.error e) =
        ⟨some uid, "User", "STUDENT", "APPROVED"⟩) ∧
    (∀ (db : List ClientProfileService.ClientRow) (uid : String) (e : SupaErr)
        (ae : Option String) (ie : Option SupaErr),
      (e.code == "PGRST116") = false →
      ClientProfileService.getUserProfileClient db uid (some e) ae ie =
        (⟨uid, "User", "ALUMNI", "APPROVED", false⟩, db)) := by
  refine ⟨rfl, rfl, fun uid e => ⟨rfl, rfl⟩, ?_⟩
  intro db uid e ae ie h
  simp [ClientProfileService.getUserProfileClient, h, ClientProfileService.FALLBACK_PROFILE]

/-- C5 witness: a store-unreachable error makes both variants fall back. -/
theorem C5_fallback_profiles_witness :
    LibProfileService.getUserProfileSafe "u8" (.error ⟨"500", "unreachable"⟩) =
      ⟨some "u8", "User", "STUDENT", "APPROVED"⟩ ∧
    ClientProfileService.getUserProfileClient [] "u8" (some ⟨"500", "unreachable"⟩) none none =
      (⟨"u8", "User", "ALUMNI", "APPROVED", false⟩, []) := by
  constructor
  · exact (C5_fallback_profiles_amended.2.2.1 "u8" ⟨"500", "unreachable"⟩).1
  · exact C5_fallback_profiles_amended.2.2.2 [] "u8" ⟨"500", "unreachable"⟩ none none rfl

/-- C6 counterexample: when the insert of a first-time resolution fails with
a primary-key uniqueness violation, the route returns HTTP 500 with the raw
error message and performs no re-read — it does not treat the violation as
"row already exists". -/
theorem C6_unique_violation_returns_500 :
    postProfile ⟨some "u7", some "jane@x.com", some "STUDENT", none⟩ [] none none
        (some ⟨"23505", "duplicate key value violates unique constraint"⟩) =
      (⟨500, .err "duplicate key value violates unique constraint"⟩, []) := by decide

/-- C6 amended: every insert error of the create branch — a concurrent
duplicate-key violation included — is surfaced to the caller as a 500
response carrying the error message, with no re-read and no write. -/
theorem C6_insert_error_amended :
    ∀ (body : Body) (db : List ProfileRow) (e : SupaErr),
      truthy body.userId = true → truthy body.email = true →
      findProfile db (body.userId.getD "") = none →
      postProfile body db none none (some e) = (⟨500, .err e.message⟩, db) := by
  intro body db e hu he hfind
  rw [postProfile_not_found body db (some e) hu he hfind]
  rfl

/-- C6 witness: the amended behavior at the duplicate-key input. -/
theorem C6_insert_error_witness :
    postProfile ⟨some "u7b", some "kay@x.com", some "ALUMNI", none⟩ [] none none
        (some ⟨"23505", "duplicate key"⟩) = (⟨500, .err "duplicate key"⟩, []) := by
  exact C6_insert_error_amended ⟨some "u7b", some "kay@x.com", some "ALUMNI", none⟩ []
    ⟨"23505", "duplicate key"⟩ rfl rfl rfl

/-- C7 counterexample: the session-precheck mapping is not total — an
unrecognized role string produces no destination at all (the user stays on
the sign-in page) instead of the general/default area. -/
theorem C7_precheck_unrecognized_no_redirect :
    precheckDest (some "MANAGER") = none := by decide

/-- C7 amended: the post-sign-in switch is a total mapping into the four
areas with default `/dashboard`; the session precheck agrees on the
recognized roles (with `ALUMNUS` normalized to `ALUMNI`) but yields no
destination for an unrecognized or absent role. -/
theorem C7_redirect_mapping_amended :
    (∀ r : String, r ∉ (["ADMIN", "RECRUITER", "STUDENT"] : List String) →
      signinDest r = "/dashboard") ∧
    (∀ r : String, r ∉ (["ADMIN", "STUDENT", "RECRUITER", "ALUMNI", "ALUMNUS"] : List String) →
      precheckDest (some r) = none) ∧
    (∀ r : String, signinDest r = "/admin" ∨ signinDest r = "/recruiter" ∨
      signinDest r = "/student/dashboard" ∨ signinDest r = "/dashboard") ∧
    signinDest "ADMIN" = "/admin" ∧ signinDest "RECRUITER" = "/recruiter" ∧
    signinDest "STUDENT" = "/student/dashboard" ∧
    precheckDest (some "ADMIN") = some "/admin" ∧
    precheckDest (some "STUDENT") = some "/student/dashboard" ∧
    precheckDest (some "RECRUITER") = some "/recruiter" ∧
    precheckDest (some "ALUMNI") = some "/dashboard" ∧
    precheckDest (some "ALUMNUS") = some "/dashboard" ∧
    precheckDest none = none := by
  refine ⟨?_, ?_, ?_, by decide, by decide, by decide, by decide, by decide, by decide,
    by decide, by decide, by decide⟩
  · intro r hr
    simp only [List.mem_cons, List.not_mem_nil, or_false, not_or] at hr
    obtain ⟨h1, h2, h3⟩ := hr
    simp [signinDest, h1, h2, h3]
  · intro r hr
    simp only [List.mem_cons, List.not_mem_nil, or_false, not_or] at hr
    obtain ⟨h1, h2, h3, h4, h5⟩ := hr
    simp [precheckDest, h1, h2, h3, h4, h5]
  · intro r
    unfold signinDest
    by_cases h1 : r == "ADMIN"
    · simp [h1]
    · by_cases h2 : r == "RECRUITER"
      · simp [h1, h2]
      · by_cases h3 : r == "STUDENT"
        · simp [h1, h2, h3]
        · simp [h1, h2, h3]

/-- C7 witness: the unrecognized role "GUEST" gets the default area from the
sign-in switch but no destination from the precheck. -/
theorem C7_redirect_mapping_witness :
    signinDest "GUEST" = "/dashboard" ∧ precheckDest (some "GUEST") = none := by
  exact ⟨C7_redirect_mapping_amended.1 "GUEST" (by decide),
    C7_redirect_mapping_amended.2.1 "GUEST" (by decide)⟩

/-- C8 counterexample: the OAuth-callback creation path is a first-time
resolution whose created profile violates the claim: with no metadata name,
the display name is the whole email (not its local part) and the role is the
hardcoded STUDENT, regardless of any claimed role. -/
theorem C8_callback_creation_differs :
    AuthCallback.callbackInsertPayload "u1" "jane@x.com" ⟨none, none⟩ =
      ⟨"u1", "jane@x.com", "STUDENT"⟩ ∧
    emailLocalPart "jane@x.com" = "jane" ∧
    ("jane@x.com" : String) ≠ "jane" := by decide

/-- C8 amended: the POST /api/profile creation path behaves as claimed —
name from the email local part, the canonical claimed role (else ALUMNI),
returned with 201 — but the OAuth-callback creation path instead names the
profile from metadata full name, metadata name or the whole email, and
always hardcodes role STUDENT. -/
theorem C8_first_time_creation_amended :
    (∀ (body : Body) (db : List ProfileRow),
      truthy body.userId = true → truthy body.email = true →
      findProfile db (body.userId.getD "") = none →
      postProfile body db none none none =
        (⟨201, .created ⟨body.userId.getD "", emailLocalPart (body.email.getD ""),
            createRole body, createStatus body⟩⟩,
          db ++ [⟨body.userId.getD "", emailLocalPart (body.email.getD ""),
            createRole body, createStatus body, body.email.getD ""⟩])) ∧
    (∀ (body : Body) (r : String),
      body.role = some r → r ∈ allowedRoles → createRole body = r) ∧
    (∀ body : Body, (∀ r, body.role = some r → r ∉ allowedRoles) →
      createRole body = "ALUMNI") ∧
    (∀ (uid email : String) (meta : AuthCallback.UserMeta),
      (AuthCallback.callbackInsertPayload uid email meta).role = "STUDENT") ∧
    (∀ uid email : String,
      AuthCallback.callbackInsertPayload uid email ⟨none, none⟩ = ⟨uid, email, "STUDENT"⟩) := by
  refine ⟨?_, createRole_of_canonical, createRole_of_not_canonical, fun uid email meta => rfl,
    fun uid email => rfl⟩
  intro body db hu he hfind
  rw [postProfile_not_found body db none hu he hfind]
  rfl

/-- C8 witness: the end-to-end example of the claim on the route path —
identity u1, jane at x.com, claimed STUDENT — creates jane/STUDENT/APPROVED
with a 201. -/
theorem C8_first_time_creation_witness :
    postProfile ⟨some "u1", some "jane@x.com", some "STUDENT", none⟩ [] none none none =
      (⟨201, .created ⟨"u1", "jane", "STUDENT", "APPROVED"⟩⟩,
        [⟨"u1", "jane", "STUDENT", "APPROVED", "jane@x.com"⟩]) := by
  exact (C8_first_time_creation_amended.1 ⟨some "u1", some "jane@x.com", some "STUDENT", none⟩
    [] rfl rfl rfl).trans (by decide)

/-- C9: no operation of the core moves a status APPROVED to PENDING: the
role-upgrade write of the resolver changes only the role column (id, name,
status and email of every row are untouched), the admin approval action
changes only the status column and only ever writes APPROVED, and on an
existing row the POST handler either leaves the table unchanged or issues
exactly that role-upgrade write. -/
theorem C9_no_approved_to_pending :
    (∀ (db : List ProfileRow) (uid r : String),
      (updateRoleInDb db uid r).map (fun p => (p.id, p.name, p.status, p.email)) =
        db.map (fun p => (p.id, p.name, p.status, p.email))) ∧
    (∀ (db : List ProfileRow) (uid : String),
      (approveUser db uid).map (fun p => (p.id, p.name, p.role, p.email)) =
        db.map (fun p => (p.id, p.name, p.role, p.email)) ∧
      ∀ q ∈ approveUser db uid, q.status = "APPROVED" ∨ q ∈ db) ∧
    (∀ (body : Body) (db : List ProfileRow) (p : ProfileRow) (ue : Option SupaErr),
      truthy body.userId = true → truthy body.email = true →
      findProfile db (body.userId.getD "") = some p →
      (postProfile body db none ue none).2 = db ∨
      (postProfile body db none ue none).2 =
        updateRoleInDb db (body.userId.getD "") (body.role.getD "")) := by
  refine ⟨?_, ?_, ?_⟩
  · intro db uid r
    rw [updateRoleInDb, List.map_map]
    apply List.map_congr_left
    intro a _
    by_cases h : a.id = uid <;> simp [h]
  · intro db uid
    constructor
    · rw [approveUser, List.map_map]
      apply List.map_congr_left
      intro a _
      by_cases h : a.id = uid <;> simp [h]
    · intro q hq
      rw [approveUser] at hq
      rcases List.mem_map.mp hq with ⟨a, ha, rfl⟩
      by_cases h : a.id = uid <;> simp [h]
      exact Or.inr ha
  · intro body db p ue hu he hfind
    rw [postProfile_found body db p ue none hu he hfind]
    by_cases hcond : (truthy body.role && allowedRoles.contains (body.role.getD "")
        && !(body.role.getD "" == p.role)) = true
    · rw [if_pos hcond]
      match ue with
      | some e => exact Or.inl rfl
      | none => exact Or.inr rfl
    · rw [if_neg hcond]
      exact Or.inl rfl

/-- C9 witness: a roleless POST on an existing APPROVED admin row leaves the
table unchanged. -/
theorem C9_no_approved_to_pending_witness :
    (postProfile ⟨some "u4", some "ad@x.com", none, none⟩
        [⟨"u4", "ad", "ADMIN", "APPROVED", "ad@x.com"⟩] none none none).2 =
      [⟨"u4", "ad", "ADMIN", "APPROVED", "ad@x.com"⟩] ∨
    (postProfile ⟨some "u4", some "ad@x.com", none, none⟩
        [⟨"u4", "ad", "ADMIN", "APPROVED", "ad@x.com"⟩] none none none).2 =
      updateRoleInDb [⟨"u4", "ad", "ADMIN", "APPROVED", "ad@x.com"⟩] "u4" "" := by
  exact C9_no_approved_to_pending.2.2 ⟨some "u4", some "ad@x.com", none, none⟩
    [⟨"u4", "ad", "ADMIN", "APPROVED", "ad@x.com"⟩]
    ⟨"u4", "ad", "ADMIN", "APPROVED", "ad@x.com"⟩ none rfl rfl (by decide)

/-- C10: getUserProfileClient of the second profile-service variant, called
for a userId with no row, inserts a profile row for that userId as a side
effect of the lookup — named from the email local part, role ALUMNI, status
APPROVED — and in every case (row found, fetch error, insert error, missing
email) it returns a profile object whose id is the requested userId, never
an error value. -/
theorem C10_client_lookup_creates :
    (∀ (db : List ClientProfileService.ClientRow) (uid email : String),
      db.find? (fun p => p.id == uid) = none → email ≠ "" →
      ClientProfileService.getUserProfileClient db uid none (some email) none =
        (⟨uid, emailLocalPart email, "ALUMNI", "APPROVED", false⟩,
          db ++ [⟨uid, emailLocalPart email, "ALUMNI", "APPROVED"⟩])) ∧
    (∀ (db : List ClientProfileService.ClientRow) (uid : String)
        (fe : Option SupaErr) (ae : Option String) (ie : Option SupaErr),
      ((ClientProfileService.getUserProfileClient db uid fe ae ie).1).id = uid) := by
  constructor
  · intro db uid email hfind hemail
    simp [ClientProfileService.getUserProfileClient, hfind,
      ClientProfileService.clientAutoCreate, hemail]
  · intro db uid fe ae ie
    match fe with
    | some e =>
      cases ie <;>
        by_cases h : (e.code == "PGRST116") = true <;>
        cases ae <;>
        simp [ClientProfileService.getUserProfileClient, h,
          ClientProfileService.clientAutoCreate]
    | none =>
      match hf : db.find? (fun p => p.id == uid) with
      | some d =>
        have hid := List.find?_some hf
        simp [ClientProfileService.getUserProfileClient, hf]
        exact eq_of_beq hid
      | none =>
        cases ie <;>
          cases ae <;>
          simp [ClientProfileService.getUserProfileClient, hf,
            ClientProfileService.clientAutoCreate]

/-- C10 witness: a fresh lookup of u9 with email zoe at x.com inserts and
returns the row u9/zoe/ALUMNI/APPROVED. -/
theorem C10_client_lookup_creates_witness :
    ClientProfileService.getUserProfileClient [] "u9" none (some "zoe@x.com") none =
      (⟨"u9", "zoe", "ALUMNI", "APPROVED", false⟩, [⟨"u9", "zoe", "ALUMNI", "APPROVED"⟩]) := by
  exact (C10_client_lookup_creates.1 [] "u9" "zoe@x.com" rfl (by decide)).trans (by decide)

end Sih1
